import Mathlib

/-!
Shallow embedding of the deterministic profile-store logic of
`src/agent.py`: the `JobSeekerData` dataclass, its derived skill query,
and the tool functions that mutate it.  Each Python tool function
`f(args, context) -> str` that mutates `context.userdata` is embedded as
a Lean function `f : args -> JobSeekerData -> JobSeekerData × String`
returning the updated record and the confirmation message.  Wall-clock
reads (`time.time()`) become an explicit rational parameter.  Python
string semantics used by the code (`.strip()`, `.lower()`, truthiness of
`None`/empty string/`0.0`) are embedded explicitly below.
-/

/-- Python whitespace characters stripped by `str.strip()` (ASCII range,
which covers every string this program manipulates). -/
def isPySpace (c : Char) : Bool :=
  c = ' ' || c = '\t' || c = '\n' || c = '\x0d' || c = '\x0b' || c = '\x0c'

/-- Embedding of Python `str.strip()`: drop leading and trailing
whitespace. -/
def pyStrip (s : String) : String :=
  ⟨((s.data.dropWhile isPySpace).reverse.dropWhile isPySpace).reverse⟩

/-- Embedding of Python `str.lower()` on the ASCII strings this program
uses. -/
def pyLower (s : String) : String :=
  ⟨s.data.map Char.toLower⟩

/-- Python truthiness-based defaulting `x or dflt` for an optional
string: `None` and the empty string are falsy. -/
def pyOrStr (v : Option String) (dflt : String) : String :=
  match v with
  | none => dflt
  | some s => if s = "" then dflt else s

/-- The per-session record `JobSeekerData` (src/agent.py lines 24-37),
with the dataclass defaults.  `conversation_start_time` is a rational
standing for the Python float timestamp. -/
structure JobSeekerData where
  name : Option String := none
  age : Option String := none
  location : Option String := none
  job_interest : Option String := none
  languages : List String := []
  skills : List String := []
  challenges : List String := []
  current_stage : String := "greeting"
  conversation_start_time : Option ℚ := none
  notes : List String := []
  skill_responses : List String := []
  practice_intro_done : Bool := false
deriving Repr, DecidableEq

/-- Fresh profile: the dataclass constructed with no arguments. -/
def freshProfile : JobSeekerData := {}

/-- The static `job_skills` dictionary inside
`JobSeekerData.get_job_specific_skills` (src/agent.py lines 45-52), as
an association list in source order. -/
def job_skills_table : List (String × List String) :=
  [ ("delivery agent",
     ["punctuality", "customer service", "navigation", "phone handling",
      "vehicle safety"]),
    ("plumber",
     ["pipe fitting", "leak detection", "tool usage",
      "customer communication", "emergency handling"]),
    ("electrician",
     ["wiring", "safety protocols", "multimeter usage", "troubleshooting",
      "electrical codes"]),
    ("mechanic",
     ["engine diagnosis", "tool handling", "problem solving",
      "customer explanation", "safety practices"]),
    ("healthcare worker",
     ["patient care", "hygiene", "empathy", "following protocols",
      "emergency response"]),
    ("it support",
     ["computer basics", "troubleshooting", "customer patience",
      "problem solving", "technical communication"]) ]

/-- The generic fallback skill list returned when `job_interest` is
unset, empty, or not a key of the table (src/agent.py line 55). -/
def generic_skills : List String :=
  ["communication", "punctuality", "problem solving", "teamwork",
   "reliability"]

/-- `JobSeekerData.get_job_specific_skills` (src/agent.py lines 43-55):
`if self.job_interest and self.job_interest.lower() in job_skills`
returns the table entry, else the generic fallback.  Python truthiness
makes `job_interest = ""` take the fallback branch. -/
def JobSeekerData.get_job_specific_skills (d : JobSeekerData) : List String :=
  match d.job_interest with
  | none => generic_skills
  | some j =>
    if j = "" then generic_skills
    else
      match job_skills_table.lookup (pyLower j) with
      | some sk => sk
      | none => generic_skills

/-- `update_name` (src/agent.py lines 63-69): stores `name.strip()`. -/
def update_name (name : String) (d : JobSeekerData) :
    JobSeekerData × String :=
  ({ d with name := some (pyStrip name) },
   "Got it, your name is " ++ name)

/-- `update_age` (src/agent.py lines 71-77): stores `age.strip()`. -/
def update_age (age : String) (d : JobSeekerData) :
    JobSeekerData × String :=
  ({ d with age := some (pyStrip age) }, "Your age is " ++ age)

/-- `update_location` (src/agent.py lines 79-85): stores
`location.strip()`. -/
def update_location (loc : String) (d : JobSeekerData) :
    JobSeekerData × String :=
  ({ d with location := some (pyStrip loc) }, "You are from " ++ loc)

/-- `update_job_interest` (src/agent.py lines 87-93): stores
`job.strip()` (no lowercasing, no underscore substitution). -/
def update_job_interest (job : String) (d : JobSeekerData) :
    JobSeekerData × String :=
  ({ d with job_interest := some (pyStrip job) },
   "You are looking for " ++ job ++ " job")

/-- `update_skills` (src/agent.py lines 95-102):
`context.userdata.skills.extend(skills)`. -/
def update_skills (skills : List String) (d : JobSeekerData) :
    JobSeekerData × String :=
  ({ d with skills := d.skills ++ skills },
   "Got it, you know " ++ String.intercalate ", " skills)

/-- `update_challenges` (src/agent.py lines 104-110):
`context.userdata.challenges.extend(challenges)`. -/
def update_challenges (challenges : List String) (d : JobSeekerData) :
    JobSeekerData × String :=
  ({ d with challenges := d.challenges ++ challenges },
   "I understand the challenges you are facing")

/-- `record_skill_response` (src/agent.py lines 112-118). -/
def record_skill_response (response : String) (d : JobSeekerData) :
    JobSeekerData × String :=
  ({ d with skill_responses := d.skill_responses ++ [response] },
   "I have noted your response")

/-- `move_to_concept_explanation` (src/agent.py lines 120-126):
unconditionally sets `current_stage`. -/
def move_to_concept_explanation (d : JobSeekerData) :
    JobSeekerData × String :=
  ({ d with current_stage := "concept_explanation" },
   "Moving to explain interview concepts")

/-- `move_to_skill_assessment` (src/agent.py lines 128-134). -/
def move_to_skill_assessment (d : JobSeekerData) :
    JobSeekerData × String :=
  ({ d with current_stage := "skill_assessment" },
   "Starting skill assessment")

/-- `move_to_practice_intro` (src/agent.py lines 136-142). -/
def move_to_practice_intro (d : JobSeekerData) :
    JobSeekerData × String :=
  ({ d with current_stage := "practice_intro" },
   "Moving to practice introduction")

/-- `move_to_final_qna` (src/agent.py lines 144-150). -/
def move_to_final_qna (d : JobSeekerData) : JobSeekerData × String :=
  ({ d with current_stage := "final_qna" }, "Moving to final questions")

/-- `move_to_wrap_up` (src/agent.py lines 152-158). -/
def move_to_wrap_up (d : JobSeekerData) : JobSeekerData × String :=
  ({ d with current_stage := "wrap_up" },
   "Moving to final feedback and wrap up")

/-- `mark_practice_intro_done` (src/agent.py lines 160-166): sets the
flag, touches nothing else. -/
def mark_practice_intro_done (d : JobSeekerData) :
    JobSeekerData × String :=
  ({ d with practice_intro_done := true },
   "Practice introduction completed")

/-- `start_conversation_timer` (src/agent.py lines 168-175):
unconditionally stores `time.time()`, embedded as the parameter `t`. -/
def start_conversation_timer (t : ℚ) (d : JobSeekerData) :
    JobSeekerData × String :=
  ({ d with conversation_start_time := some t }, "Timer started")

/-- `update_languages` (src/agent.py lines 177-184): plain assignment
`context.userdata.languages = languages` (replacement, not extend). -/
def update_languages (languages : List String) (d : JobSeekerData) :
    JobSeekerData × String :=
  ({ d with languages := languages },
   "You speak " ++ String.intercalate ", " languages)

/-- `move_to_setup_phase` (src/agent.py lines 186-192): despite its
name it sets `current_stage` to "concept_explanation". -/
def move_to_setup_phase (d : JobSeekerData) : JobSeekerData × String :=
  ({ d with current_stage := "concept_explanation" },
   "Moving to interview preparation concepts")

/-- `move_to_practice_phase` (src/agent.py lines 194-200): sets
`current_stage` to "practice_intro". -/
def move_to_practice_phase (d : JobSeekerData) : JobSeekerData × String :=
  ({ d with current_stage := "practice_intro" },
   "Starting interview practice")

/-- `add_note` (src/agent.py lines 202-208). -/
def add_note (note : String) (d : JobSeekerData) : JobSeekerData × String :=
  ({ d with notes := d.notes ++ [note] }, "Note added")

/-- State effect and elapsed-time computation of
`InterviewPrepAgent.on_enter` (src/agent.py lines 308-323).  The two
`time.time()` reads inside the one synchronous call are embedded as the
single instant `t`.  The code first sets `conversation_start_time` when
it is `None`, then computes `elapsed_time = 0` overridden by
`(time.time() - start) / 60` under Python float truthiness of the start
value (`0.0` is falsy).  Returns the updated record and the elapsed
minutes that the context message reports. -/
def on_enter (t : ℚ) (d : JobSeekerData) : JobSeekerData × ℚ :=
  let d' :=
    if d.conversation_start_time = none then
      { d with conversation_start_time := some t }
    else d
  let elapsed : ℚ :=
    match d'.conversation_start_time with
    | none => 0
    | some s => if s = 0 then 0 else (t - s) / 60
  (d', elapsed)

/-- The `Name:` field of the context message (src/agent.py line 330):
`userdata.name or 'Not provided'`. -/
def renderedName (d : JobSeekerData) : String :=
  pyOrStr d.name "Not provided"

/-- The `Age:` field of the context message (src/agent.py line 331). -/
def renderedAge (d : JobSeekerData) : String :=
  pyOrStr d.age "Not provided"

/-- The `Location:` field of the context message (src/agent.py
line 332). -/
def renderedLocation (d : JobSeekerData) : String :=
  pyOrStr d.location "Not provided"

/-- The `Job Interest:` field of the context message (src/agent.py
line 333). -/
def renderedJobInterest (d : JobSeekerData) : String :=
  pyOrStr d.job_interest "Not provided"

/-- The `Languages:` field of the context message (src/agent.py
line 334): comma join if non-empty, else "Not provided". -/
def renderedLanguages (d : JobSeekerData) : String :=
  if d.languages = [] then "Not provided"
  else String.intercalate ", " d.languages

/-- Names of all module-level `@function_tool` definitions in
src/agent.py (lines 63-208), in source order. -/
def module_tool_names : List String :=
  ["update_name", "update_age", "update_location", "update_job_interest",
   "update_skills", "update_challenges", "record_skill_response",
   "move_to_concept_explanation", "move_to_skill_assessment",
   "move_to_practice_intro", "move_to_final_qna", "move_to_wrap_up",
   "mark_practice_intro_done", "start_conversation_timer",
   "update_languages", "move_to_setup_phase", "move_to_practice_phase",
   "add_note"]

/-- Names of the tools registered with `InterviewPrepAgent`
(src/agent.py lines 297-303). -/
def registered_tool_names : List String :=
  ["update_name", "update_age", "update_location", "update_job_interest",
   "update_languages", "update_skills", "update_challenges",
   "record_skill_response", "move_to_concept_explanation",
   "move_to_skill_assessment", "move_to_practice_intro",
   "move_to_final_qna", "move_to_wrap_up", "mark_practice_intro_done",
   "start_conversation_timer", "add_note"]

/-- Field names of the `JobSeekerData` dataclass (src/agent.py
lines 24-37). -/
def jobSeekerData_field_names : List String :=
  ["name", "age", "location", "job_interest", "languages", "skills",
   "challenges", "current_stage", "conversation_start_time", "notes",
   "skill_responses", "practice_intro_done"]

/-- The fixed phase ordering from the comment on `current_stage`
(src/agent.py line 33): greeting -> info_collection ->
concept_explanation -> skill_assessment -> practice_intro -> final_qna
-> wrap_up.  Returns the index of a phase in that sequence. -/
def stageIndex (s : String) : Nat :=
  if s = "greeting" then 0
  else if s = "info_collection" then 1
  else if s = "concept_explanation" then 2
  else if s = "skill_assessment" then 3
  else if s = "practice_intro" then 4
  else if s = "final_qna" then 5
  else 6

/-- Fold a sequence of `update_skills` calls over a profile. -/
def applySkillCalls (calls : List (List String)) (d : JobSeekerData) :
    JobSeekerData :=
  calls.foldl (fun d c => (update_skills c d).1) d

/-- Fold a sequence of `update_challenges` calls over a profile. -/
def applyChallengeCalls (calls : List (List String)) (d : JobSeekerData) :
    JobSeekerData :=
  calls.foldl (fun d c => (update_challenges c d).1) d

/-! Theorems settling the claims. -/

/-- C1 counterexample: from the reachable state produced by calling
`move_to_wrap_up` on a fresh profile, calling
`move_to_concept_explanation` moves `current_stage` strictly backward
in the fixed phase sequence, and the call is not a no-op: the stage
actually changes.  So phase-setting operations neither reject nor
ignore backward requests. -/
theorem phase_can_move_backward :
    stageIndex
        (move_to_concept_explanation
          (move_to_wrap_up freshProfile).1).1.current_stage <
      stageIndex (move_to_wrap_up freshProfile).1.current_stage ∧
    (move_to_concept_explanation
        (move_to_wrap_up freshProfile).1).1.current_stage ≠
      (move_to_wrap_up freshProfile).1.current_stage := by
  decide

/-- C1 (amended): every phase-setting operation unconditionally
assigns its fixed target to `current_stage`, regardless of the current
phase; backward requests are neither rejected nor no-ops. -/
theorem phase_ops_set_stage_unconditionally (d : JobSeekerData) :
    (move_to_concept_explanation d).1.current_stage =
        "concept_explanation" ∧
    (move_to_skill_assessment d).1.current_stage = "skill_assessment" ∧
    (move_to_practice_intro d).1.current_stage = "practice_intro" ∧
    (move_to_final_qna d).1.current_stage = "final_qna" ∧
    (move_to_wrap_up d).1.current_stage = "wrap_up" ∧
    (move_to_setup_phase d).1.current_stage = "concept_explanation" ∧
    (move_to_practice_phase d).1.current_stage = "practice_intro" :=
  ⟨rfl, rfl, rfl, rfl, rfl, rfl, rfl⟩

/-- C1 witness: the amended statement evaluated on the fresh
profile. -/
theorem phase_ops_set_stage_unconditionally_witness :
    (move_to_concept_explanation freshProfile).1.current_stage =
        "concept_explanation" ∧
    (move_to_skill_assessment freshProfile).1.current_stage =
        "skill_assessment" ∧
    (move_to_practice_intro freshProfile).1.current_stage =
        "practice_intro" ∧
    (move_to_final_qna freshProfile).1.current_stage = "final_qna" ∧
    (move_to_wrap_up freshProfile).1.current_stage = "wrap_up" ∧
    (move_to_setup_phase freshProfile).1.current_stage =
        "concept_explanation" ∧
    (move_to_practice_phase freshProfile).1.current_stage =
        "practice_intro" :=
  phase_ops_set_stage_unconditionally freshProfile

/-- C2 counterexample: setting the job to "Electrician" does not store
the normalized "electrician", and the skill query does not return
{Circuit analysis, Safety protocols, Tool usage, Problem diagnosis}. -/
theorem electrician_claim_false :
    (update_job_interest "Electrician" freshProfile).1.job_interest ≠
        some "electrician" ∧
    (update_job_interest "Electrician"
        freshProfile).1.get_job_specific_skills ≠
      ["Circuit analysis", "Safety protocols", "Tool usage",
       "Problem diagnosis"] := by
  decide

/-- C2 (amended): setting the job to "Electrician" stores the stripped
but otherwise unmodified string "Electrician"; the skill query
lowercases it for the table lookup and returns the source's electrician
list {wiring, safety protocols, multimeter usage, troubleshooting,
electrical codes}. -/
theorem electrician_actual_behavior (d : JobSeekerData) :
    (update_job_interest "Electrician" d).1.job_interest =
        some "Electrician" ∧
    (update_job_interest "Electrician" d).1.get_job_specific_skills =
      ["wiring", "safety protocols", "multimeter usage",
       "troubleshooting", "electrical codes"] := by
  refine ⟨?_, ?_⟩ <;>
    simp only [update_job_interest, JobSeekerData.get_job_specific_skills] <;>
    decide

/-- C2 witness: the amended statement evaluated on the fresh
profile. -/
theorem electrician_actual_behavior_witness :
    (update_job_interest "Electrician" freshProfile).1.job_interest =
        some "Electrician" ∧
    (update_job_interest "Electrician"
        freshProfile).1.get_job_specific_skills =
      ["wiring", "safety protocols", "multimeter usage",
       "troubleshooting", "electrical codes"] :=
  electrician_actual_behavior freshProfile

/-- C3: whenever `job_interest` is unset, or set to a string whose
lowercasing is not a key of the static job table, the skill query
returns exactly the generic fallback list. -/
theorem unrecognized_job_generic_fallback (d : JobSeekerData)
    (h : d.job_interest = none ∨
      ∃ j, d.job_interest = some j ∧
        job_skills_table.lookup (pyLower j) = none) :
    d.get_job_specific_skills = generic_skills := by
  unfold JobSeekerData.get_job_specific_skills
  rcases h with h | ⟨j, hj, hl⟩
  · rw [h]
  · rw [hj]
    by_cases hje : j = ""
    · simp [hje]
    · simp [hje, hl]

/-- C3 witness: the fallback theorem applied to a profile whose job is
the unrecognized string "astronaut". -/
theorem unrecognized_job_generic_fallback_witness :
    ({ freshProfile with job_interest := some "astronaut" } :
        JobSeekerData).get_job_specific_skills = generic_skills :=
  unrecognized_job_generic_fallback _
    (Or.inr ⟨"astronaut", rfl, by decide⟩)

/-- C4 counterexample: with the timestamp already set to 0, a second
`start_conversation_timer` call at time 1 overwrites it with 1, so the
second call is not a no-op. -/
theorem timer_second_call_overwrites :
    (start_conversation_timer 1
        ({ freshProfile with conversation_start_time := some 0 } :
          JobSeekerData)).1.conversation_start_time = some 1 ∧
    (some (1 : ℚ)) ≠ some (0 : ℚ) := by
  refine ⟨rfl, ?_⟩
  norm_num

/-- C4 (amended): `start_conversation_timer` unconditionally stores the
current time, overwriting any previously stored timestamp; the
set-at-most-once behavior exists only in `on_enter`. -/
theorem timer_always_stores_current_time (t : ℚ) (d : JobSeekerData) :
    (start_conversation_timer t d).1.conversation_start_time = some t :=
  rfl

/-- C5 helper: folding `update_skills` calls appends the concatenation
of the argument lists in call order. -/
theorem applySkillCalls_skills (calls : List (List String))
    (d : JobSeekerData) :
    (applySkillCalls calls d).skills = d.skills ++ calls.flatten := by
  induction calls generalizing d with
  | nil => simp [applySkillCalls]
  | cons c cs ih =>
    have hstep : applySkillCalls (c :: cs) d =
        applySkillCalls cs (update_skills c d).1 := rfl
    rw [hstep, ih]
    simp [update_skills]

/-- C5 helper: folding `update_challenges` calls appends the
concatenation of the argument lists in call order. -/
theorem applyChallengeCalls_challenges (calls : List (List String))
    (d : JobSeekerData) :
    (applyChallengeCalls calls d).challenges =
      d.challenges ++ calls.flatten := by
  induction calls generalizing d with
  | nil => simp [applyChallengeCalls]
  | cons c cs ih =>
    have hstep : applyChallengeCalls (c :: cs) d =
        applyChallengeCalls cs (update_challenges c d).1 := rfl
    rw [hstep, ih]
    simp [update_challenges]

/-- C5: for every initial profile and every finite sequence of
`update_skills` (resp. `update_challenges`) calls, the resulting skills
(resp. challenges) list is the initial list followed by the
concatenation of all argument lists in call order, duplicates and order
preserved. -/
theorem skill_and_challenge_calls_concatenate
    (d : JobSeekerData) (calls : List (List String)) :
    (applySkillCalls calls d).skills = d.skills ++ calls.flatten ∧
    (applyChallengeCalls calls d).challenges =
      d.challenges ++ calls.flatten :=
  ⟨applySkillCalls_skills calls d, applyChallengeCalls_challenges calls d⟩

/-- C6 counterexample: `update_name` silently coerces its argument by
stripping whitespace, so the stored value differs from the supplied
value. -/
theorem update_name_coerces :
    (update_name " Ravi " freshProfile).1.name ≠ some " Ravi " := by
  decide

/-- C6 (amended): the string-setter operations strip leading and
trailing whitespace before storing (a silent coercion), and no
operation validates its domain or rejects any input — each setter is a
total function storing the stripped string. -/
theorem setters_store_stripped (s : String) (d : JobSeekerData) :
    (update_name s d).1.name = some (pyStrip s) ∧
    (update_age s d).1.age = some (pyStrip s) ∧
    (update_location s d).1.location = some (pyStrip s) ∧
    (update_job_interest s d).1.job_interest = some (pyStrip s) :=
  ⟨rfl, rfl, rfl, rfl⟩

/-- C6 witness: the amended statement evaluated at a concrete padded
string on the fresh profile. -/
theorem setters_store_stripped_witness :
    (update_name " Ravi " freshProfile).1.name = some (pyStrip " Ravi ") ∧
    (update_age " Ravi " freshProfile).1.age = some (pyStrip " Ravi ") ∧
    (update_location " Ravi " freshProfile).1.location =
        some (pyStrip " Ravi ") ∧
    (update_job_interest " Ravi " freshProfile).1.job_interest =
        some (pyStrip " Ravi ") :=
  setters_store_stripped " Ravi " freshProfile

/-- C7 counterexample: rendering the status block via `on_enter` on a
fresh profile sets `conversation_start_time`, so the summarizer is not
a pure query over the profile. -/
theorem on_enter_sets_timer :
    (on_enter 5 freshProfile).1.conversation_start_time ≠
      freshProfile.conversation_start_time := by
  simp [on_enter, freshProfile]

/-- C7 (amended): the `on_enter` summary step initializes
`conversation_start_time` to the current time exactly when it is unset
and leaves every other field unchanged; when the timestamp is already
set the whole profile is left unchanged. -/
theorem on_enter_frame (t : ℚ) (d : JobSeekerData) :
    (on_enter t d).1 =
      { d with conversation_start_time :=
          if d.conversation_start_time = none then some t
          else d.conversation_start_time } := by
  by_cases h : d.conversation_start_time = none <;>
    simp [on_enter, h]

/-- C8: on a freshly created profile the rendered summary reports
name, age, location, job interest and languages as "Not provided", and
the elapsed time computed by `on_enter` is 0 at every call instant. -/
theorem fresh_summary_not_provided (t : ℚ) :
    renderedName freshProfile = "Not provided" ∧
    renderedAge freshProfile = "Not provided" ∧
    renderedLocation freshProfile = "Not provided" ∧
    renderedJobInterest freshProfile = "Not provided" ∧
    renderedLanguages freshProfile = "Not provided" ∧
    (on_enter t freshProfile).2 = 0 := by
  refine ⟨rfl, rfl, rfl, rfl, rfl, ?_⟩
  simp [on_enter, freshProfile]

/-- C9 counterexample: no operation named `markConceptsUnderstood` (or
`mark_concepts_understood`) exists among the module's tool functions or
the agent's registered tools, and the dataclass has no
`ready_for_practice` field. -/
theorem no_mark_concepts_understood :
    "markConceptsUnderstood" ∉ module_tool_names ∧
    "mark_concepts_understood" ∉ module_tool_names ∧
    "markConceptsUnderstood" ∉ registered_tool_names ∧
    "mark_concepts_understood" ∉ registered_tool_names ∧
    "ready_for_practice" ∉ jobSeekerData_field_names := by
  decide

/-- C9 (amended): the only understanding/readiness flag operation is
`mark_practice_intro_done`, which takes no boolean argument, sets
`practice_intro_done` to true, and leaves `current_stage` (and hence
the phase) unchanged. -/
theorem mark_practice_intro_done_behavior (d : JobSeekerData) :
    (mark_practice_intro_done d).1.practice_intro_done = true ∧
    (mark_practice_intro_done d).1.current_stage = d.current_stage :=
  ⟨rfl, rfl⟩

/-- C10: `update_languages` replaces the stored languages list with its
argument (last call wins), unlike `update_skills` and
`update_challenges`, which append their arguments to the existing
lists. -/
theorem update_languages_replaces (d : JobSeekerData)
    (ls : List String) :
    (update_languages ls d).1.languages = ls ∧
    (update_skills ls d).1.skills = d.skills ++ ls ∧
    (update_challenges ls d).1.challenges = d.challenges ++ ls :=
  ⟨rfl, rfl, rfl⟩
